import Mathlib

/-!
Shallow embedding of `numba/core/event.py`: an in-process event bus with
a kind guard, an event record, a listener registry, built-in timing and
recording listeners, and scoped emission helpers.

Modelling conventions:
* Python exceptions are modelled by message strings; an operation that can
  raise returns `SysState × Option String` (the state as mutated so far, and
  `some msg` when an exception is propagating) or `Except String _` for pure
  fragments.
* Listener objects are mutable; they are modelled by identity (a `Nat` id)
  plus a separate id-to-state map, so that `list.remove` (which compares by
  object identity here, since `Listener` defines no `__eq__`) is faithful.
* `timer()` / `time.time()` are modelled by a monotone `clock : Nat` in the
  global state that only explicit `ticks` steps advance.
-/

set_option maxRecDepth 10000

namespace NumbaEvent

/-- Status of an event (source class `EventStatus`). -/
inductive EventStatus where
  | START
  | END
deriving DecidableEq, Repr

/-- The exception triple `(type, value, traceback)` as passed to `__exit__`;
each slot is optional (`None`-able). Exceptions are modelled by their
message string in every slot that is present. -/
abbrev ExcDetails := Option String × Option String × Option String

/-- Builtin event kinds (source `_builtin_kinds`). -/
def _builtin_kinds : List String := ["numba:compiler_lock", "numba:compile"]

/-- Python `str.startswith`, evaluated on the character lists. -/
def startswith (s pre : String) : Bool := pre.data.isPrefixOf s.data

/-- Source `_guard_kind`: every kind that starts with the reserved "numba:"
marker must be in `_builtin_kinds`; any other kind is returned unchanged.
The `ValueError` is modelled by `Except.error` with the source's message. -/
def _guard_kind (kind : String) : Except String String :=
  if startswith kind "numba:" && !(_builtin_kinds.contains kind) then
    Except.error (kind ++ " is not a valid event kind")
  else
    Except.ok kind

/-- Source class `Event`. `data` is the opaque extra payload (modelled as an
optional string); `exc_details` is the optional exception triple. -/
structure Event where
  kind : String
  status : EventStatus
  data : Option String
  exc_details : Option ExcDetails
deriving DecidableEq, Repr

/-- Source `Event.__init__`: the kind is guarded at construction, so building
an event with an invalid kind raises. -/
def Event.init (kind : String) (status : EventStatus) (data : Option String)
    (exc_details : Option ExcDetails) : Except String Event :=
  match _guard_kind kind with
  | .error e => .error e
  | .ok k => .ok { kind := k, status := status, data := data, exc_details := exc_details }

/-- Source `Event.is_start`: `self._status == EventStatus.START`. -/
def Event.is_start (e : Event) : Bool := e.status == EventStatus.START

/-- Source `Event.is_end`: `self._status == EventStatus.END`. -/
def Event.is_end (e : Event) : Bool := e.status == EventStatus.END

/-- Source `Event.is_failed`: literally `self._exc_details[0] is None`.
When `_exc_details` is `None`, subscripting raises `TypeError`; that is
modelled by the `none` result, so a boolean is produced only when a triple
is present. -/
def Event.is_failed (e : Event) : Option Bool :=
  match e.exc_details with
  | none => none
  | some exc => some exc.1.isNone

/-- State of one installed listener. `timing` and `recording` carry the
fields of the source classes `TimingListener` (`_ts`, `_depth`, and the
`_duration` attribute that is absent until first assigned) and
`RecordingListener` (`buffer`). `scripted` models a user-defined `Listener`
subclass whose callbacks either raise immediately or append the observed
event to a log; it exercises the failure-propagation behaviour. -/
inductive ListenerState where
  | timing (ts : Option Nat) (depth : Int) (duration : Option Int)
  | recording (buffer : List (Nat × Event))
  | scripted (failOnStart : Bool) (failOnEnd : Bool) (log : List (Nat × Event))
deriving DecidableEq, Repr

/-- `on_start` behaviour of each listener variant at clock time `now`
(source `TimingListener.on_start`, `RecordingListener.on_start`). -/
def ListenerState.on_start (ls : ListenerState) (now : Nat) (e : Event) :
    Except String ListenerState :=
  match ls with
  | .timing ts depth duration =>
      .ok (.timing (if ts.isNone then some now else ts) (depth + 1) duration)
  | .recording buffer => .ok (.recording (buffer ++ [(now, e)]))
  | .scripted failOnStart failOnEnd log =>
      if failOnStart then .error "listener error"
      else .ok (.scripted failOnStart failOnEnd (log ++ [(now, e)]))

/-- `on_end` behaviour of each listener variant at clock time `now`
(source `TimingListener.on_end`, `RecordingListener.on_end`). The
`TypeError` branch (`timer() - None`) is unreachable through the module's
API, since any positive depth implies a recorded start timestamp. -/
def ListenerState.on_end (ls : ListenerState) (now : Nat) (e : Event) :
    Except String ListenerState :=
  match ls with
  | .timing ts depth duration =>
      let d := depth - 1
      if d == 0 then
        match ts with
        | some t0 => .ok (.timing ts d (some ((now : Int) - (t0 : Int))))
        | none => .error "TypeError"
      else .ok (.timing ts d duration)
  | .recording buffer => .ok (.recording (buffer ++ [(now, e)]))
  | .scripted failOnStart failOnEnd log =>
      if failOnEnd then .error "listener error"
      else .ok (.scripted failOnStart failOnEnd (log ++ [(now, e)]))

/-- Source `Listener.notify`: dispatch to `on_start` / `on_end` on the
event status (the final `AssertionError` arm is dead, as statuses are
exactly START and END). -/
def ListenerState.notify (ls : ListenerState) (now : Nat) (e : Event) :
    Except String ListenerState :=
  if e.is_start then ls.on_start now e
  else if e.is_end then ls.on_end now e
  else .error "unreachable"

/-- Global state: the registry `_registered` (kind to ordered listener-id
list; the `defaultdict(list)` default is the empty list), the id-to-state
map of the live listener objects, and the clock. -/
structure SysState where
  registered : List (String × List Nat)
  listeners : List (Nat × ListenerState)
  clock : Nat
deriving DecidableEq, Repr

/-- `_registered[kind]` with the `defaultdict(list)` default. -/
def getRegistered (s : SysState) (kind : String) : List Nat :=
  match s.registered.find? (fun p => p.1 == kind) with
  | some p => p.2
  | none => []

/-- Store `l` as the listener list of `kind`. -/
def setRegistered (s : SysState) (kind : String) (l : List Nat) : SysState :=
  { s with registered := (kind, l) :: s.registered.filter (fun p => !(p.1 == kind)) }

/-- Look up the state of the listener object with identity `lid`. -/
def getListener (s : SysState) (lid : Nat) : Option ListenerState :=
  (s.listeners.find? (fun p => p.1 == lid)).map (fun p => p.2)

/-- Overwrite the state of the listener object with identity `lid`. -/
def setListener (s : SysState) (lid : Nat) (ls : ListenerState) : SysState :=
  { s with listeners := (lid, ls) :: s.listeners.filter (fun p => !(p.1 == lid)) }

/-- Source `register` (the `isinstance(listener, Listener)` assertion holds
by construction in this model): guard the kind, then append to its list. -/
def register (kind : String) (lid : Nat) (s : SysState) : SysState × Option String :=
  match _guard_kind kind with
  | .error e => (s, some e)
  | .ok k => (setRegistered s k (getRegistered s k ++ [lid]), none)

/-- Python `list.remove(x)`: drop the first entry equal to `x`; `none` when
`x` is absent (the `ValueError` case). -/
def removeFirst (l : List Nat) (x : Nat) : Option (List Nat) :=
  match l with
  | [] => none
  | a :: rest =>
      if a == x then some rest
      else (removeFirst rest x).map (fun r => a :: r)

/-- Source `unregister`: guard the kind, then `_registered[kind].remove(listener)`;
`list.remove` raises `ValueError` when the listener is not in the list (in
that case the registry is observably unchanged: the empty default list a
`defaultdict` lookup may materialise is indistinguishable from no entry). -/
def unregister (kind : String) (lid : Nat) (s : SysState) : SysState × Option String :=
  match _guard_kind kind with
  | .error e => (s, some e)
  | .ok k =>
      match removeFirst (getRegistered s k) lid with
      | some l => (setRegistered s k l, none)
      | none => (s, some "list.remove(x): x not in list")

/-- One `listener.notify(event)` call inside `broadcast`'s loop. A raising
callback propagates with the state as mutated so far. The `none` branch
(an id not backed by a live object) is unreachable in well-formed states. -/
def notifyOne (lid : Nat) (e : Event) (s : SysState) : SysState × Option String :=
  match getListener s lid with
  | none => (s, some "KeyError")
  | some ls =>
      match ls.notify s.clock e with
      | .ok ls2 => (setListener s lid ls2, none)
      | .error msg => (s, some msg)

/-- The `for listener in _registered[event.kind]: listener.notify(event)`
loop of `broadcast`: each listed id in order, stopping at the first raising
callback. -/
def notifyAll (ids : List Nat) (e : Event) (s : SysState) : SysState × Option String :=
  match ids with
  | [] => (s, none)
  | lid :: rest =>
      match notifyOne lid e s with
      | (s1, none) => notifyAll rest e s1
      | (s1, some msg) => (s1, some msg)

/-- Source `broadcast`. -/
def broadcast (e : Event) (s : SysState) : SysState × Option String :=
  notifyAll (getRegistered s e.kind) e s

/-- The `(None, None, None)` triple `ExitStack` passes to an exit callback
on a clean exit. -/
def noFailure : ExcDetails := (none, none, none)

/-- The `(type(E), E, traceback)` triple captured for a propagating failure
`E`: all three slots present, derived here from the failure's message. -/
def excTripleOf (e : String) : ExcDetails := (some e, some e, some e)

/-- Source `start_event`: build a START event (guard included) and
broadcast it. -/
def start_event (kind : String) (data : Option String) (s : SysState) :
    SysState × Option String :=
  match Event.init kind EventStatus.START data none with
  | .error msg => (s, some msg)
  | .ok evt => broadcast evt s

/-- Source `end_event`: build an END event carrying `exc_details` (guard
included) and broadcast it. -/
def end_event (kind : String) (data : Option String) (exc_details : Option ExcDetails)
    (s : SysState) : SysState × Option String :=
  match Event.init kind EventStatus.END data exc_details with
  | .error msg => (s, some msg)
  | .ok evt => broadcast evt s

/-- Source `mark_event` as a transformer of the guarded `body`. The
`ExitStack` exit callback `on_exit` is pushed before `start_event` runs,
so `end_event` fires on every unwinding path: after a normal body with the
`(None, None, None)` triple, and after a failure of the body (or even of
`start_event` itself) with that failure's triple. A failure raised by
`end_event` during unwinding replaces the original one (as an exception
raised inside `__exit__` does in Python); otherwise the original failure
propagates unchanged. -/
def mark_event (kind : String) (data : Option String)
    (body : SysState → SysState × Option String) (s : SysState) :
    SysState × Option String :=
  match start_event kind data s with
  | (s1, some e) =>
      match end_event kind data (some (excTripleOf e)) s1 with
      | (s2, some e2) => (s2, some e2)
      | (s2, none) => (s2, some e)
  | (s1, none) =>
      match body s1 with
      | (s2, none) => end_event kind data (some noFailure) s2
      | (s2, some e) =>
          match end_event kind data (some (excTripleOf e)) s2 with
          | (s3, some e2) => (s3, some e2)
          | (s3, none) => (s3, some e)

/-- Source `TimingListener.duration`: the `_duration` attribute, absent
(`AttributeError`) before the first completed zero-depth cycle. -/
def durationOf (ls : ListenerState) : Option Int :=
  match ls with
  | .timing _ _ d => d
  | _ => none

/-- Source `install_timer`: create a fresh `TimingListener` (with identity
`lid`), register it, run the scope `body`, unregister in the `finally` on
every exit path, and only on a clean exit read `listener.duration` and call
the callback with it. The extra returned component is `some d` exactly when
the callback ran, with its argument `d`; reading `.duration` before any
completed measurement raises `AttributeError` instead. -/
def install_timer (kind : String) (lid : Nat)
    (body : SysState → SysState × Option String) (s : SysState) :
    (SysState × Option String) × Option Int :=
  let s0 := setListener s lid (ListenerState.timing none 0 none)
  match register kind lid s0 with
  | (s1, some e) => ((s1, some e), none)
  | (s1, none) =>
      match body s1 with
      | (s2, some e) =>
          match unregister kind lid s2 with
          | (s3, some e2) => ((s3, some e2), none)
          | (s3, none) => ((s3, some e), none)
      | (s2, none) =>
          match unregister kind lid s2 with
          | (s3, some e2) => ((s3, some e2), none)
          | (s3, none) =>
              match durationOf ((getListener s3 lid).getD (ListenerState.timing none 0 none)) with
              | some d => ((s3, none), some d)
              | none => ((s3, some "AttributeError"), none)

/-- Source `install_recorder`: create a fresh `RecordingListener` (with
identity `lid`), register it, run the scope `body`, unregister in the
`finally` on every exit path. -/
def install_recorder (kind : String) (lid : Nat)
    (body : SysState → SysState × Option String) (s : SysState) :
    SysState × Option String :=
  let s0 := setListener s lid (ListenerState.recording [])
  match register kind lid s0 with
  | (s1, some e) => (s1, some e)
  | (s1, none) =>
      match body s1 with
      | (s2, some e) =>
          match unregister kind lid s2 with
          | (s3, some e2) => (s3, some e2)
          | (s3, none) => (s3, some e)
      | (s2, none) => unregister kind lid s2

/-- Sequencing of two body fragments (Python statement sequencing: the
second runs only if the first did not raise). -/
def seqM (f g : SysState → SysState × Option String) (s : SysState) :
    SysState × Option String :=
  match f s with
  | (s1, none) => g s1
  | r => r

/-- The empty body (`pass`). -/
def skipM (s : SysState) : SysState × Option String := (s, none)

/-- A body that raises failure `e`. -/
def raiseM (e : String) (s : SysState) : SysState × Option String := (s, some e)

/-- Let `n` units of time pass: advances the clock behind `timer()` and
`time.time()`. -/
def ticks (n : Nat) (s : SysState) : SysState × Option String :=
  ({ s with clock := s.clock + n }, none)

/-- `n` successive `mark_event kind none skipM` invocations, each guarded
body completing normally. -/
def repeatMark (kind : String) : Nat → SysState → SysState × Option String
  | 0, s => (s, none)
  | Nat.succ n, s =>
      match mark_event kind none skipM s with
      | (s1, none) => repeatMark kind n s1
      | r => r

/-! Concrete states and records used to instantiate the theorems below. -/

/-- The initial, empty global state. -/
def emptyState : SysState := { registered := [], listeners := [], clock := 0 }

/-- The START event `start_event k none` constructs. -/
def startRecord (k : String) : Event :=
  { kind := k, status := EventStatus.START, data := none, exc_details := none }

/-- The END event `mark_event k none` emits after a normal body. -/
def endRecord (k : String) : Event :=
  { kind := k, status := EventStatus.END, data := none, exc_details := some noFailure }

/-- The END event `mark_event k none` emits while failure `e` unwinds. -/
def endRecordFail (k : String) (e : String) : Event :=
  { kind := k, status := EventStatus.END, data := none, exc_details := some (excTripleOf e) }

/-- The statuses of a recorded buffer, in order. -/
def statusesOf (l : List (Nat × Event)) : List EventStatus := l.map (fun p => p.2.status)

/-- One fresh `TimingListener` (id 0) registered for `k`, clock at `t`. -/
def timerState (k : String) (t : Nat) : SysState :=
  { registered := [(k, [0])], listeners := [(0, ListenerState.timing none 0 none)], clock := t }

/-- One `RecordingListener` (id 0) with buffer `buf` registered for `k`,
clock at `t`. -/
def recState (k : String) (buf : List (Nat × Event)) (t : Nat) : SysState :=
  { registered := [(k, [0])], listeners := [(0, ListenerState.recording buf)], clock := t }

/-- Witness states for the `mark_event` exit-path theorem. -/
def w1s : SysState := recState "work" [] 5

/-- State after the Start broadcast of the `mark_event` witness run. -/
def w1s1 : SysState := recState "work" [(5, startRecord "work")] 5

/-- State after the End broadcast of the `mark_event` witness run. -/
def w1s3 : SysState :=
  recState "work" [(5, startRecord "work"), (5, endRecordFail "work" "boom")] 5

/-- Two scripted listeners for kind "work": id 0 logs everything, id 1
raises in `on_start`. -/
def cexState : SysState :=
  { registered := [("work", [0, 1])],
    listeners := [(0, ListenerState.scripted false false []),
                  (1, ListenerState.scripted true false [])],
    clock := 5 }

/-- `cexState` after its Start broadcast raised in listener 1. -/
def cexS1 : SysState :=
  { registered := [("work", [0, 1])],
    listeners := [(0, ListenerState.scripted false false [(5, startRecord "work")]),
                  (1, ListenerState.scripted true false [])],
    clock := 5 }

/-- `cexS1` after the unwinding End broadcast reached both listeners. -/
def cexS2 : SysState :=
  { registered := [("work", [0, 1])],
    listeners := [(1, ListenerState.scripted true false
                        [(5, endRecordFail "work" "listener error")]),
                  (0, ListenerState.scripted false false
                        [(5, startRecord "work"),
                         (5, endRecordFail "work" "listener error")])],
    clock := 5 }

/-- Witness states for the `install_timer` theorem: after registration, -/
def w7s1 : SysState :=
  { registered := [("work", [0])],
    listeners := [(0, ListenerState.timing none 0 none)], clock := 0 }

/-- after the timed body (a `mark_event` around 4 clock ticks), -/
def w7s2 : SysState :=
  { registered := [("work", [0])],
    listeners := [(0, ListenerState.timing (some 0) 0 (some 4))], clock := 4 }

/-- and after the listener is unregistered again. -/
def w7s3 : SysState :=
  { registered := [("work", [])],
    listeners := [(0, ListenerState.timing (some 0) 0 (some 4))], clock := 4 }

/-- A logging listener registered twice under "work". -/
def w4s : SysState :=
  { registered := [("work", [0, 0])],
    listeners := [(0, ListenerState.scripted false false [])], clock := 3 }

/-- A recording listener registered once under "work". -/
def w9s : SysState := recState "work" [] 2

/-! Helper lemmas about the registry and listener maps. -/

/-- Filtering out one key does not change lookups of a different key. -/
theorem find?_filter_key {α β : Type} [DecidableEq α] (l : List (α × β)) (k k2 : α)
    (h : ¬ k2 = k) :
    (l.filter (fun p => !(p.1 == k))).find? (fun p => p.1 == k2) =
      l.find? (fun p => p.1 == k2) := by
  have h' : ¬ k = k2 := fun hx => h hx.symm
  induction l with
  | nil => rfl
  | cons a rest ih =>
    by_cases ha : a.1 = k
    · have ha2 : ¬ a.1 = k2 := by rw [ha]; exact h'
      simp [List.filter_cons, List.find?_cons, ha, ha2, h, h', ih]
    · by_cases hb : a.1 = k2
      · simp [List.filter_cons, List.find?_cons, ha, hb, h, h']
      · simp [List.filter_cons, List.find?_cons, ha, hb, ih]

/-- Reading back the listener list just stored for a kind. -/
theorem getRegistered_set_self (s : SysState) (k : String) (l : List Nat) :
    getRegistered (setRegistered s k l) k = l := by
  simp [getRegistered, setRegistered, List.find?_cons]

/-- Storing a listener list for one kind leaves other kinds unchanged. -/
theorem getRegistered_set_ne (s : SysState) (k k2 : String) (l : List Nat)
    (h : ¬ k2 = k) :
    getRegistered (setRegistered s k l) k2 = getRegistered s k2 := by
  simp only [getRegistered, setRegistered, List.find?_cons]
  have : ((k, l).1 == k2) = false := by
    simp only [beq_eq_false_iff_ne, ne_eq]
    exact fun hx => h hx.symm
  simp [this, find?_filter_key s.registered k k2 h]

/-- Reading back the listener state just stored for an id. -/
theorem getListener_set_self (s : SysState) (lid : Nat) (ls : ListenerState) :
    getListener (setListener s lid ls) lid = some ls := by
  simp [getListener, setListener, List.find?_cons]

/-- Storing a listener state for one id leaves other ids unchanged. -/
theorem getListener_set_ne (s : SysState) (lid lid2 : Nat) (ls : ListenerState)
    (h : ¬ lid2 = lid) :
    getListener (setListener s lid ls) lid2 = getListener s lid2 := by
  simp only [getListener, setListener, List.find?_cons]
  have : ((lid, ls).1 == lid2) = false := by
    simp only [beq_eq_false_iff_ne, ne_eq]
    exact fun hx => h hx.symm
  simp [this, find?_filter_key s.listeners lid lid2 h]

/-- `setRegistered` does not touch the listener objects. -/
theorem getListener_setRegistered (s : SysState) (k : String) (l : List Nat) (lid : Nat) :
    getListener (setRegistered s k l) lid = getListener s lid := rfl

/-- `setListener` does not touch the registry or the clock. -/
theorem setListener_registered (s : SysState) (lid : Nat) (ls : ListenerState) :
    (setListener s lid ls).registered = s.registered ∧
      (setListener s lid ls).clock = s.clock := ⟨rfl, rfl⟩

/-- A step of `notifyOne` on another id preserves this id's listener state. -/
theorem getListener_notifyOne_ne (lid lid2 : Nat) (e : Event) (s : SysState)
    (h : ¬ lid = lid2) :
    getListener (notifyOne lid2 e s).1 lid = getListener s lid := by
  cases hg : getListener s lid2 with
  | none => simp [notifyOne, hg]
  | some ls =>
    cases hn : ls.notify s.clock e with
    | error msg => simp [notifyOne, hg, hn]
    | ok ls2 => simp [notifyOne, hg, hn, getListener_set_ne s lid2 lid ls2 h]

/-- Delivering an event to a list of ids not containing `lid` preserves
`lid`'s listener state, whether or not a callback raised along the way. -/
theorem getListener_notifyAll_not_mem (ids : List Nat) (e : Event) (s : SysState)
    (lid : Nat) (h : lid ∉ ids) :
    getListener (notifyAll ids e s).1 lid = getListener s lid := by
  induction ids generalizing s with
  | nil => rfl
  | cons a rest ih =>
    have ha : ¬ lid = a := fun hx => h (hx ▸ List.mem_cons_self a rest)
    have hrest : lid ∉ rest := fun hx => h (List.mem_cons_of_mem a hx)
    unfold notifyAll
    cases hno : notifyOne a e s with
    | mk s1 err =>
      have hkeep : getListener s1 lid = getListener s lid := by
        have h2 := getListener_notifyOne_ne lid a e s ha
        rw [hno] at h2; exact h2
      cases err with
      | none => exact (ih s1 hrest).trans hkeep
      | some msg => exact hkeep

/-- Python `list.remove` drops exactly the first matching entry. -/
theorem removeFirst_append (l1 l2 : List Nat) (x : Nat) (h : x ∉ l1) :
    removeFirst (l1 ++ x :: l2) x = some (l1 ++ l2) := by
  induction l1 with
  | nil => simp [removeFirst]
  | cons a rest ih =>
    have ha : ¬ (a == x) = true := by
      simp only [beq_iff_eq]
      exact fun hx => h (hx ▸ List.mem_cons_self a rest)
    have hrest : x ∉ rest := fun hx => h (List.mem_cons_of_mem a hx)
    simp [removeFirst, ha, ih hrest]

/-- Python `list.remove` raises when no entry matches. -/
theorem removeFirst_not_mem (l : List Nat) (x : Nat) (h : x ∉ l) :
    removeFirst l x = none := by
  induction l with
  | nil => rfl
  | cons a rest ih =>
    have ha : ¬ (a == x) = true := by
      simp only [beq_iff_eq]
      exact fun hx => h (hx ▸ List.mem_cons_self a rest)
    have hrest : x ∉ rest := fun hx => h (List.mem_cons_of_mem a hx)
    simp [removeFirst, ha, ih hrest]

/-! Claim theorems. -/

/-- C3: for every kind `k` without the reserved "numba:" start, `_guard_kind`
succeeds and returns `k` unchanged; for every reserved-prefixed `k` it
succeeds (returning `k`) iff `k` is in the fixed builtin set and otherwise
fails with the `ValueError` (`InvalidEventKind`); and a guard failure
surfaces identically at every use site: `register`, `unregister`, event
construction, and hence `start_event` and `end_event`. -/
theorem guard_kind_spec (k : String) :
    (startswith k "numba:" = false → _guard_kind k = .ok k) ∧
    (startswith k "numba:" = true →
      ((_guard_kind k = .ok k ↔ k ∈ _builtin_kinds) ∧
       (k ∉ _builtin_kinds →
         _guard_kind k = .error (k ++ " is not a valid event kind")))) ∧
    (∀ msg, _guard_kind k = .error msg →
      (∀ lid s, register k lid s = (s, some msg)) ∧
      (∀ lid s, unregister k lid s = (s, some msg)) ∧
      (∀ data s, start_event k data s = (s, some msg)) ∧
      (∀ data exc s, end_event k data exc s = (s, some msg)) ∧
      (∀ status data exc, Event.init k status data exc = .error msg)) := by
  refine ⟨fun h => by simp [_guard_kind, h], fun h => ?_, fun msg hmsg => ?_⟩
  · constructor
    · constructor
      · intro hok
        by_cases hmem : k ∈ _builtin_kinds
        · exact hmem
        · simp [_guard_kind, h, hmem] at hok
      · intro hmem
        simp [_guard_kind, h, hmem]
    · intro hmem
      simp [_guard_kind, h, hmem]
  · refine ⟨fun lid s => ?_, fun lid s => ?_, fun data s => ?_,
      fun data exc s => ?_, fun status data exc => ?_⟩
    · simp [register, hmsg]
    · simp [unregister, hmsg]
    · simp [start_event, Event.init, hmsg]
    · simp [end_event, Event.init, hmsg]
    · simp [Event.init, hmsg]

/-- Witness for C3: "work" passes the guard; "numba:bogus" is rejected with
the source's message at the `unregister` use site. -/
theorem guard_kind_spec_witness :
    _guard_kind "work" = .ok "work" ∧
    unregister "numba:bogus" 0 emptyState =
      (emptyState, some "numba:bogus is not a valid event kind") :=
  ⟨(guard_kind_spec "work").1 (by decide),
   ((guard_kind_spec "numba:bogus").2.2 "numba:bogus is not a valid event kind"
      rfl).2.1 0 emptyState⟩

/-- C5: `is_failed` is true exactly when the first slot of a present failure
triple is the absent sentinel; consequently the END event `mark_event` emits
on a normal exit (triple `(None, None, None)`) has `is_failed = true`, and
the one it emits while a failure unwinds (all slots present) has
`is_failed = false` — the literal, polarity-inverted predicate. -/
theorem is_failed_polarity :
    (∀ (e : Event) (tr : ExcDetails), e.exc_details = some tr →
       e.is_failed = some tr.1.isNone) ∧
    (∀ k d evt, Event.init k EventStatus.END d (some noFailure) = .ok evt →
       evt.is_failed = some true) ∧
    (∀ k d err evt, Event.init k EventStatus.END d (some (excTripleOf err)) = .ok evt →
       evt.is_failed = some false) := by
  refine ⟨fun e tr h => by simp [Event.is_failed, h], ?_, ?_⟩
  · intro k d evt h
    unfold Event.init at h
    cases hg : _guard_kind k with
    | error e => rw [hg] at h; cases h
    | ok k2 =>
      rw [hg] at h
      cases h
      rfl
  · intro k d err evt h
    unfold Event.init at h
    cases hg : _guard_kind k with
    | error e => rw [hg] at h; cases h
    | ok k2 =>
      rw [hg] at h
      cases h
      rfl

/-- Witness for C5: the two END records of a `mark_event "work"` run. -/
theorem is_failed_polarity_witness :
    (endRecord "work").is_failed = some true ∧
    (endRecordFail "work" "boom").is_failed = some false :=
  ⟨is_failed_polarity.2.1 "work" none (endRecord "work") rfl,
   is_failed_polarity.2.2 "work" none "boom" (endRecordFail "work" "boom") rfl⟩

/-- C10: an event constructed without a failure triple (the default, used
for every START event of `start_event` and every END event of `end_event`
with the failure argument omitted) has no boolean `is_failed` at all: the
accessor fails (`TypeError` from subscripting `None`), modelled by `none`. -/
theorem is_failed_absent :
    (∀ e : Event, e.exc_details = none → e.is_failed = none) ∧
    (∀ k st d evt, Event.init k st d none = .ok evt → evt.is_failed = none) := by
  refine ⟨fun e h => by simp [Event.is_failed, h], ?_⟩
  intro k st d evt h
  unfold Event.init at h
  cases hg : _guard_kind k with
  | error e => rw [hg] at h; cases h
  | ok k2 =>
    rw [hg] at h
    cases h
    rfl

/-- Witness for C10: the START record `start_event "work"` broadcasts has
no defined `is_failed` value. -/
theorem is_failed_absent_witness : (startRecord "work").is_failed = none :=
  is_failed_absent.2 "work" EventStatus.START none (startRecord "work") rfl

/-- C1: once the Start phase of `mark_event` has completed, `end_event` is
called exactly once on exit: after a normal body the whole run literally
equals that single `end_event` call with the `(None, None, None)` triple;
after the body raises `e`, `end_event` runs with `e`'s captured triple, and
— provided that End broadcast completes, delivering the End record to all
currently-registered listeners — the original failure `e` then reaches the
caller unchanged (never suppressed or replaced). -/
theorem mark_event_end_spec (kind : String) (data : Option String)
    (body : SysState → SysState × Option String) (s s1 : SysState)
    (h1 : start_event kind data s = (s1, none)) :
    (∀ s2, body s1 = (s2, none) →
       mark_event kind data body s = end_event kind data (some noFailure) s2) ∧
    (∀ s2 e s3, body s1 = (s2, some e) →
       end_event kind data (some (excTripleOf e)) s2 = (s3, none) →
       mark_event kind data body s = (s3, some e)) := by
  constructor
  · intro s2 h2
    simp [mark_event, h1, h2]
  · intro s2 e s3 h2 h3
    simp [mark_event, h1, h2, h3]

/-- Witness for C1: a body raising "boom" inside `mark_event "work"`: the
End record (with "boom"'s triple) reaches the recording listener and "boom"
propagates unchanged. -/
theorem mark_event_end_spec_witness :
    mark_event "work" none (raiseM "boom") w1s = (w1s3, some "boom") :=
  (mark_event_end_spec "work" none (raiseM "boom") w1s w1s1 (by decide)).2
    w1s1 "boom" w1s3 (by decide) (by decide)

/-- Counterexample for C2 as stated: listeners 0 (logging) and 1 (raising in
`on_start`) are registered for "work". The Start-phase broadcast of
`mark_event "work"` fails in listener 1, yet the End phase IS reached: the
exit callback was pushed on the `ExitStack` before `start_event` ran, so the
End record is still broadcast — listener 0's log holds both the Start and
the End record, and listener 1 observed the End record too — while the
listener failure propagates. Both records were emitted, not exactly one. -/
theorem mark_event_start_failure_counterexample :
    (mark_event "work" none skipM cexState).2 = some "listener error" ∧
    getListener (mark_event "work" none skipM cexState).1 0 =
      some (ListenerState.scripted false false
        [(5, startRecord "work"), (5, endRecordFail "work" "listener error")]) ∧
    getListener (mark_event "work" none skipM cexState).1 1 =
      some (ListenerState.scripted true false
        [(5, endRecordFail "work" "listener error")]) :=
  ⟨by decide, by decide, by decide⟩

/-- C2 amended: when a registered listener's `on_start` raises during the
Start phase of `mark_event`, the failure propagates to the caller, but the
End phase is still reached — the End-emitting exit callback was pushed
before `start_event`, so the End record (carrying the failure's triple) is
broadcast to the currently-registered listeners, and when that End broadcast
completes the original listener failure propagates unchanged; both records
are emitted, not exactly one. -/
theorem mark_event_start_failure_spec (kind : String) (data : Option String)
    (body : SysState → SysState × Option String) (s s1 : SysState) (e : String)
    (h1 : start_event kind data s = (s1, some e)) :
    ∀ s2, end_event kind data (some (excTripleOf e)) s1 = (s2, none) →
      mark_event kind data body s = (s2, some e) := by
  intro s2 h2
  simp [mark_event, h1, h2]

/-- Witness for the amended C2: the concrete two-listener run. -/
theorem mark_event_start_failure_spec_witness :
    mark_event "work" none skipM cexState = (cexS2, some "listener error") :=
  mark_event_start_failure_spec "work" none skipM cexState cexS1 "listener error"
    (by decide) cexS2 (by decide)

/-- A non-raising scripted listener logs every event it is notified of. -/
theorem scripted_notify_log (log : List (Nat × Event)) (now : Nat) (e : Event) :
    (ListenerState.scripted false false log).notify now e =
      .ok (ListenerState.scripted false false (log ++ [(now, e)])) := by
  cases hst : e.status with
  | START =>
    simp [ListenerState.notify, Event.is_start, Event.is_end, hst,
      ListenerState.on_start]
  | END =>
    simp [ListenerState.notify, Event.is_start, Event.is_end, hst,
      ListenerState.on_end]

/-- Filtering twice with the same predicate filters once. -/
theorem filter_idem {α : Type} (p : α → Bool) (l : List α) :
    (l.filter p).filter p = l.filter p := by
  induction l with
  | nil => rfl
  | cons a rest ih =>
    by_cases hp : p a = true
    · simp [List.filter_cons, hp, ih]
    · simp [List.filter_cons, hp, ih]

/-- Overwriting the same listener id twice keeps only the second state. -/
theorem setListener_setListener (s : SysState) (lid : Nat) (a b : ListenerState) :
    setListener (setListener s lid a) lid b = setListener s lid b := by
  unfold setListener
  simp [List.filter_cons, filter_idem]

/-- `setListener` leaves the clock alone. -/
theorem setListener_clock (s : SysState) (lid : Nat) (ls : ListenerState) :
    (setListener s lid ls).clock = s.clock := rfl

/-- C4: `broadcast` delivers to the listeners registered under the event's
kind in registration order — the head first, then the tail exactly when the
head's callback did not raise, so a raising callback stops delivery
immediately and its failure propagates to the broadcast caller; an empty
listener list is a no-op; and each registered occurrence is notified once,
so an id registered twice is notified twice (a non-raising logging listener
logs the event two times). -/
theorem broadcast_spec :
    (∀ (e : Event) (s : SysState), getRegistered s e.kind = [] →
       broadcast e s = (s, none)) ∧
    (∀ (e : Event) (s : SysState) (lid : Nat) (rest : List Nat) (s1 : SysState),
       getRegistered s e.kind = lid :: rest → notifyOne lid e s = (s1, none) →
       broadcast e s = notifyAll rest e s1) ∧
    (∀ (e : Event) (s : SysState) (lid : Nat) (rest : List Nat) (s1 : SysState)
       (msg : String),
       getRegistered s e.kind = lid :: rest → notifyOne lid e s = (s1, some msg) →
       broadcast e s = (s1, some msg)) ∧
    (∀ (e : Event) (s : SysState) (lid : Nat) (log : List (Nat × Event)),
       getRegistered s e.kind = [lid, lid] →
       getListener s lid = some (ListenerState.scripted false false log) →
       broadcast e s =
         (setListener s lid (ListenerState.scripted false false
            (log ++ [(s.clock, e), (s.clock, e)])), none)) := by
  refine ⟨?_, ?_, ?_, ?_⟩
  · intro e s h
    simp [broadcast, h, notifyAll]
  · intro e s lid rest s1 h h1
    simp [broadcast, h, notifyAll, h1]
  · intro e s lid rest s1 msg h h1
    simp [broadcast, h, notifyAll, h1]
  · intro e s lid log h hl
    have h1 : notifyOne lid e s =
        (setListener s lid
          (ListenerState.scripted false false (log ++ [(s.clock, e)])), none) := by
      simp [notifyOne, hl, scripted_notify_log]
    have hl2 : getListener
        (setListener s lid (ListenerState.scripted false false (log ++ [(s.clock, e)])))
        lid = some (ListenerState.scripted false false (log ++ [(s.clock, e)])) :=
      getListener_set_self s lid _
    have h2 : notifyOne lid e
        (setListener s lid
          (ListenerState.scripted false false (log ++ [(s.clock, e)]))) =
        (setListener s lid (ListenerState.scripted false false
          (log ++ [(s.clock, e), (s.clock, e)])), none) := by
      simp [notifyOne, hl2, scripted_notify_log, setListener_setListener,
        setListener_clock]
    simp [broadcast, h, notifyAll, h1, h2]

/-- Witness for C4: a logging listener registered twice under "work" is
notified twice by one broadcast. -/
theorem broadcast_spec_witness :
    broadcast (startRecord "work") w4s =
      (setListener w4s 0 (ListenerState.scripted false false
         [(3, startRecord "work"), (3, startRecord "work")]), none) :=
  broadcast_spec.2.2.2 (startRecord "work") w4s 0 [] (by decide) (by decide)

/-- C9: `unregister` removes exactly the first registry entry equal to the
listener, leaving any later duplicate registrations in place; when no entry
matches it raises (the `list.remove` `ValueError`, the spec's
`ListenerNotFound`) with the state unchanged; a listener absent from a
kind's list is never notified by a broadcast of that kind (its state is
untouched even when another callback raises mid-broadcast); and after
unregistering a listener that was registered exactly once, a subsequent
broadcast of that kind leaves it untouched. -/
theorem unregister_spec :
    (∀ kind lid s l1 l2, _guard_kind kind = .ok kind →
       getRegistered s kind = l1 ++ lid :: l2 → lid ∉ l1 →
       unregister kind lid s = (setRegistered s kind (l1 ++ l2), none)) ∧
    (∀ kind lid s, _guard_kind kind = .ok kind → lid ∉ getRegistered s kind →
       unregister kind lid s = (s, some "list.remove(x): x not in list")) ∧
    (∀ (e : Event) (s : SysState) (lid : Nat), lid ∉ getRegistered s e.kind →
       getListener (broadcast e s).1 lid = getListener s lid) ∧
    (∀ kind lid s l1 l2 (e : Event), _guard_kind kind = .ok kind →
       getRegistered s kind = l1 ++ lid :: l2 → lid ∉ l1 → lid ∉ l2 →
       e.kind = kind →
       getListener (broadcast e (unregister kind lid s).1).1 lid =
         getListener s lid) := by
  have hA : ∀ kind lid s l1 l2, _guard_kind kind = .ok kind →
      getRegistered s kind = l1 ++ lid :: l2 → lid ∉ l1 →
      unregister kind lid s = (setRegistered s kind (l1 ++ l2), none) := by
    intro kind lid s l1 l2 hg hr h1
    simp [unregister, hg, hr, removeFirst_append l1 l2 lid h1]
  have hC : ∀ (e : Event) (s : SysState) (lid : Nat),
      lid ∉ getRegistered s e.kind →
      getListener (broadcast e s).1 lid = getListener s lid := by
    intro e s lid h
    unfold broadcast
    exact getListener_notifyAll_not_mem _ e s lid h
  refine ⟨hA, ?_, hC, ?_⟩
  · intro kind lid s hg h
    simp [unregister, hg, removeFirst_not_mem _ _ h]
  · intro kind lid s l1 l2 e hg hr h1 h2 hk
    have hnot : lid ∉ getRegistered (setRegistered s kind (l1 ++ l2)) e.kind := by
      rw [hk, getRegistered_set_self s kind (l1 ++ l2)]
      intro hx
      rcases List.mem_append.mp hx with hx1 | hx2
      · exact h1 hx1
      · exact h2 hx2
    rw [hA kind lid s l1 l2 hg hr h1]
    show getListener (broadcast e (setRegistered s kind (l1 ++ l2))).1 lid =
      getListener s lid
    exact (hC e (setRegistered s kind (l1 ++ l2)) lid hnot).trans
      (getListener_setRegistered s kind (l1 ++ l2) lid)

/-- Witness for C9: after unregistering the only "work" listener, a "work"
broadcast leaves it untouched. -/
theorem unregister_spec_witness :
    getListener (broadcast (startRecord "work") (unregister "work" 0 w9s).1).1 0 =
      getListener w9s 0 :=
  unregister_spec.2.2.2 "work" 0 w9s [] [] (startRecord "work") rfl (by decide)
    (by decide) (by decide) rfl

/-- C6: a `TimingListener` records its start timestamp only at the first
Start it sees (a later Start leaves the timestamp untouched), increments its
depth per Start and decrements it per End, computes a duration only when the
depth returns exactly to zero (an inner End leaves the duration untouched),
and therefore over nested `mark_event` invocations of the same kind — outer
wrapping inner, with `a`, `b`, `c` clock ticks before, inside, and after the
inner invocation — it reports the single duration `a + b + c` spanning
outer-start to outer-end, not per-nesting-level durations. -/
theorem timing_nested_spec :
    (∀ (t0 : Nat) (d : Int) (dur : Option Int) (now : Nat) (e : Event),
       (ListenerState.timing (some t0) d dur).on_start now e =
         .ok (ListenerState.timing (some t0) (d + 1) dur)) ∧
    (∀ (d : Int) (dur : Option Int) (now : Nat) (e : Event),
       (ListenerState.timing none d dur).on_start now e =
         .ok (ListenerState.timing (some now) (d + 1) dur)) ∧
    (∀ (t0 : Nat) (d : Int) (dur : Option Int) (now : Nat) (e : Event),
       ¬ d - 1 = 0 →
       (ListenerState.timing (some t0) d dur).on_end now e =
         .ok (ListenerState.timing (some t0) (d - 1) dur)) ∧
    (∀ (t0 : Nat) (dur : Option Int) (now : Nat) (e : Event),
       (ListenerState.timing (some t0) 1 dur).on_end now e =
         .ok (ListenerState.timing (some t0) 0
           (some ((now : Int) - (t0 : Int))))) ∧
    (∀ (k : String) (t a b c : Nat), startswith k "numba:" = false →
       mark_event k none
           (seqM (ticks a) (seqM (mark_event k none (ticks b)) (ticks c)))
           (timerState k t) =
         ({ registered := [(k, [0])],
            listeners := [(0, ListenerState.timing (some t) 0
              (some ((a : Int) + (b : Int) + (c : Int))))],
            clock := t + a + b + c }, none)) := by
  refine ⟨?_, ?_, ?_, ?_, ?_⟩
  · intro t0 d dur now e
    simp [ListenerState.on_start]
  · intro d dur now e
    simp [ListenerState.on_start]
  · intro t0 d dur now e h
    simp [ListenerState.on_end, h]
  · intro t0 dur now e
    simp [ListenerState.on_end]
  · intro k t a b c hk
    have hg : _guard_kind k = .ok k := by simp [_guard_kind, hk]
    simp [mark_event, start_event, end_event, Event.init, hg, broadcast,
      getRegistered, setListener, notifyAll, notifyOne, getListener,
      ListenerState.notify, ListenerState.on_start, ListenerState.on_end,
      Event.is_start, Event.is_end, seqM, ticks, noFailure, timerState,
      List.find?_cons, List.append_assoc]
    omega

/-- Witness for C6: nested `mark_event "work"` with 1, 2, 3 ticks around
the inner invocation yields the single outer duration 6. -/
theorem timing_nested_spec_witness :
    mark_event "work" none
        (seqM (ticks 1) (seqM (mark_event "work" none (ticks 2)) (ticks 3)))
        (timerState "work" 10) =
      ({ registered := [("work", [0])],
         listeners := [(0, ListenerState.timing (some 10) 0 (some 6))],
         clock := 16 }, none) := by
  have h := timing_nested_spec.2.2.2.2 "work" 10 1 2 3 (by decide)
  simpa using h

/-- C7: `install_timer` always unregisters its listener in the `finally`;
on a normal scope exit it then invokes the callback exactly once, after the
removal, with the listener's final measured duration (read in the
post-removal state); on an exceptional exit the listener is still removed
but the callback is never invoked and the failure continues to propagate
unchanged. -/
theorem install_timer_spec (kind : String) (lid : Nat)
    (body : SysState → SysState × Option String) (s s1 : SysState)
    (h1 : register kind lid (setListener s lid (ListenerState.timing none 0 none)) =
      (s1, none)) :
    (∀ s2 s3 d, body s1 = (s2, none) → unregister kind lid s2 = (s3, none) →
       durationOf ((getListener s3 lid).getD (ListenerState.timing none 0 none)) =
         some d →
       install_timer kind lid body s = ((s3, none), some d)) ∧
    (∀ s2 e s3, body s1 = (s2, some e) → unregister kind lid s2 = (s3, none) →
       install_timer kind lid body s = ((s3, some e), none)) := by
  constructor
  · intro s2 s3 d h2 h3 h4
    simp [install_timer, h1, h2, h3, h4]
  · intro s2 e s3 h2 h3
    simp [install_timer, h1, h2, h3]

/-- Witness for C7: a timed `mark_event "work"` body of 4 ticks; the
callback receives duration 4 after the listener is removed. -/
theorem install_timer_spec_witness :
    install_timer "work" 0 (mark_event "work" none (ticks 4)) emptyState =
      ((w7s3, none), some 4) :=
  (install_timer_spec "work" 0 (mark_event "work" none (ticks 4)) emptyState w7s1
    (by decide)).1 w7s2 w7s3 4 (by decide) (by decide) (by decide)

/-- One `mark_event kind none skipM` on a state with a single recording
listener appends exactly one Start and one End record to its buffer. -/
theorem mark_event_skip_step (k : String) (hk : startswith k "numba:" = false)
    (buf : List (Nat × Event)) (t : Nat) :
    mark_event k none skipM (recState k buf t) =
      (recState k (buf ++ [(t, startRecord k), (t, endRecord k)]) t, none) := by
  have hg : _guard_kind k = .ok k := by simp [_guard_kind, hk]
  simp [mark_event, start_event, end_event, Event.init, hg, broadcast,
    getRegistered, setListener, notifyAll, notifyOne, getListener,
    ListenerState.notify, ListenerState.on_start, ListenerState.on_end,
    Event.is_start, Event.is_end, skipM, noFailure, recState, startRecord,
    endRecord, List.find?_cons, List.append_assoc]

/-- `n` invocations of `mark_event kind none skipM` append `n` Start/End
record pairs to the watching recording listener's buffer. -/
theorem repeatMark_rec (k : String) (hk : startswith k "numba:" = false)
    (n : Nat) (buf : List (Nat × Event)) (t : Nat) :
    repeatMark k n (recState k buf t) =
      (recState k
        (buf ++ (List.replicate n [(t, startRecord k), (t, endRecord k)]).flatten) t,
        none) := by
  induction n generalizing buf with
  | zero => simp [repeatMark]
  | succ n ih =>
    rw [repeatMark, mark_event_skip_step k hk buf t]
    show repeatMark k n (recState k (buf ++ [(t, startRecord k), (t, endRecord k)]) t) =
      (recState k
        (buf ++ (List.replicate (n + 1) [(t, startRecord k), (t, endRecord k)]).flatten) t,
        none)
    rw [ih (buf ++ [(t, startRecord k), (t, endRecord k)])]
    simp [List.replicate_succ, List.append_assoc]

/-- C8: after `n` `mark_event k` invocations with normally-completing bodies
observed by a registered `RecordingListener`, the run raises nothing and the
buffer is exactly the `n` chronological (wall-clock timestamp, Start
record), (wall-clock timestamp, End record) pairs: its length is `2 * n`
and its statuses alternate Start, End, Start, End, ... -/
theorem recording_mark_spec (k : String) (t n : Nat)
    (hk : startswith k "numba:" = false) :
    repeatMark k n (recState k [] t) =
      (recState k ((List.replicate n [(t, startRecord k), (t, endRecord k)]).flatten) t,
        none) ∧
    ((List.replicate n [(t, startRecord k), (t, endRecord k)]).flatten).length = 2 * n ∧
    statusesOf ((List.replicate n [(t, startRecord k), (t, endRecord k)]).flatten) =
      (List.replicate n [EventStatus.START, EventStatus.END]).flatten := by
  refine ⟨by simpa using repeatMark_rec k hk n [] t, ?_, ?_⟩
  · induction n with
    | zero => rfl
    | succ n ih =>
      simp only [List.replicate_succ, List.flatten_cons, List.length_append, ih,
        List.length_cons, List.length_nil]
      omega
  · induction n with
    | zero => rfl
    | succ n ih =>
      simp [List.replicate_succ, List.flatten_cons, statusesOf, List.map_append,
        startRecord, endRecord, ih]

/-- Witness for C8: two invocations of `mark_event "work"` produce a buffer
of length 4 alternating Start, End, Start, End. -/
theorem recording_mark_spec_witness :
    repeatMark "work" 2 (recState "work" [] 5) =
      (recState "work"
        ((List.replicate 2 [(5, startRecord "work"), (5, endRecord "work")]).flatten) 5,
        none) ∧
    ((List.replicate 2 [(5, startRecord "work"), (5, endRecord "work")]).flatten).length =
      2 * 2 ∧
    statusesOf
        ((List.replicate 2 [(5, startRecord "work"), (5, endRecord "work")]).flatten) =
      (List.replicate 2 [EventStatus.START, EventStatus.END]).flatten :=
  recording_mark_spec "work" 5 2 (by decide)

end NumbaEvent
